import Mathlib

/-!
Verification development for the CarePrep AI ai-service core
(`app/processors/ai_processor.py` and `app/prompts/prompts.py`).

The Python code is shallowly embedded: pure string manipulation becomes
Lean functions on `String` / `List Char`; the remote OpenRouter client is
modelled by an explicit oracle (`RemoteBehavior` for the operation level,
an attempt-indexed outcome oracle for the retry loop of `_make_request`);
Python exceptions raised inside an operation's `try` block are modelled by
a dedicated oracle constructor, since the embedded string functions
themselves are total and cannot fail.

Regular-expression calls in `_parse_document_summary` are embedded by
specialised matchers implementing the exact backtracking semantics of the
six patterns appearing in the source (documented at each definition).
Case-insensitivity and the `\s` class are modelled at ASCII granularity.
-/

namespace CarePrep

/-! ### Character classes and basic scanning (semantics of `re` constructs) -/

/-- ASCII case-insensitive character comparison, modelling `re.IGNORECASE`. -/
def ciCharEq (a b : Char) : Bool := a.toLower == b.toLower

/-- Case-insensitive "pattern is a literal prefix of text". -/
def ciStartsWith : List Char → List Char → Bool
  | [], _ => true
  | _ :: _, [] => false
  | p :: ps, c :: cs => ciCharEq p c && ciStartsWith ps cs

/-- The `\s` character class (ASCII part), also used for `str.strip`. -/
def wsB (c : Char) : Bool :=
  c == ' ' || c == '\t' || c == '\n' || c == '\r' || c == '\x0b' || c == '\x0c'

/-- The `[:\s]` character class from the section regexes. -/
def wsColonB (c : Char) : Bool := c == ':' || wsB c

/-- Length of the maximal leading whitespace run (greedy `\s*`). -/
def wsRun (l : List Char) : Nat := (l.takeWhile wsB).length

/-- `str.strip()`: drop leading and trailing whitespace. -/
def pyStrip (l : List Char) : List Char :=
  ((l.dropWhile wsB).reverse.dropWhile wsB).reverse

/-- Plain (case-sensitive) substring occurrence, i.e. Python's `in`. -/
def listContains (pat : List Char) : List Char → Bool
  | [] => pat.isPrefixOf []
  | c :: t => pat.isPrefixOf (c :: t) || listContains pat t

/-- Substring occurrence on `String`. -/
def strContains (hay pat : String) : Bool := listContains pat.data hay.data

/-- Case-insensitive substring occurrence (used to express "the section
label occurs nowhere in the reply"). -/
def ciOccurs (pat : List Char) : List Char → Bool
  | [] => ciStartsWith pat []
  | c :: t => ciStartsWith pat (c :: t) || ciOccurs pat t

/-! ### The four section regexes of `_parse_document_summary`

Each has the shape `LABEL[:\s]*(.+?)(?=A1|A2|...|$)` with `re.DOTALL` and
`re.IGNORECASE` (`$` is among the lookahead alternatives in all four, for
the RED FLAGS pattern the group is `(.+?)$`).  Under `re.search` this
means: the match starts at the leftmost position where a label variant
matches case-insensitively and at least one character follows it (the
lazy group needs one character; the `$` alternative then always succeeds
at end-of-text, so no other condition constrains matching).  The greedy
`[:\s]*` takes the maximal run, backing off one character only when it
would swallow the entire remainder; the lazy group then extends to the
first position (after at least one character) where a lookahead literal
matches case-insensitively or `$` matches (end of text, or just before a
final newline, as in Python's non-MULTILINE `$`). -/

/-- Does the lookahead `(?=A1|...|$)` hold at the remaining text `t`? -/
def lookMatch (lks : List (List Char)) (t : List Char) : Bool :=
  t.isEmpty || t == ['\n'] || lks.any (fun la => ciStartsWith la t)

/-- Lazy `(.+?)` expansion: consume characters until the first position,
after at least one consumed character, where the lookahead holds. -/
def groupScan (lks : List (List Char)) : List Char → List Char
  | [] => []
  | c :: t => if lookMatch lks t then [c] else c :: groupScan lks t

/-- Apply `[:\s]*(.+?)(?=…)` to the text following the label: greedy class
run (backing off one character if it consumed everything), then the lazy
group. `rest` is nonempty by the caller's check. -/
def sectionBody (lks : List (List Char)) (rest : List Char) : List Char :=
  let m := (rest.takeWhile wsColonB).length
  let k := if m = rest.length then m - 1 else m
  groupScan lks (rest.drop k)

/-- Try the label variants in the regex's preference order at the current
position; a variant succeeds only when at least one character follows it
(otherwise the engine backtracks into the next variant, exactly as the
optional group in `\*\*FOLLOW-UP (?:ACTIONS?)?\*\*` does). -/
def firstVariantRest : List (List Char) → List Char → Option (List Char)
  | [], _ => none
  | v :: vs, s =>
    if ciStartsWith v s && !(s.drop v.length).isEmpty then some (s.drop v.length)
    else firstVariantRest vs s

/-- `re.search` for a section pattern: scan left to right for the first
position where the full pattern matches, and return the captured group. -/
def sectionSearch (variants lks : List (List Char)) : List Char → Option (List Char)
  | [] => none
  | c :: t =>
    match firstVariantRest variants (c :: t) with
    | some rest => some (sectionBody lks rest)
    | none => sectionSearch variants lks t

/-! ### The three `re.findall` item patterns

`-\s*name:\s*(.+?)(?:\n|$)`, `-\s*action:\s*(.+?)(?:\n|$)` (both
`re.IGNORECASE`) and `[-•]\s*(.+?)(?:\n|$)`, all without `re.DOTALL`, so
`.` excludes the newline.  The trailing `(?:\n|$)` prefers consuming a
newline; since `.` cannot cross a newline, the lazy group is exactly the
maximal newline-free run from its start.  The `\s*` directly before the
group genuinely backtracks (a space is matched by `.`): the greedy run
backs off until the group can start with a non-newline character. -/

/-- Group plus remaining text for `(.+?)(?:\n|$)` started at `v` (whose
head is a non-newline character). -/
def mkGroupRest (v : List Char) : List Char × List Char :=
  let g := v.takeWhile (fun c => c != '\n')
  let after := v.drop g.length
  (g, match after with
      | '\n' :: r => r
      | other => other)

/-- Can the lazy group start here (at least one `.`-matchable char)? -/
def goodStart : List Char → Bool
  | [] => false
  | c :: _ => c != '\n'

/-- Backtracking of the greedy `\s*` just before the group: try consuming
`k` whitespace characters, from the maximal run downwards. -/
def wsBacktrack (u : List Char) : Nat → Option (List Char × List Char)
  | 0 => if goodStart u then some (mkGroupRest u) else none
  | k+1 =>
    if goodStart (u.drop (k+1)) then some (mkGroupRest (u.drop (k+1)))
    else wsBacktrack u k

/-- Matches `\s*(.+?)(?:\n|$)` at `u`. -/
def tailItem (u : List Char) : Option (List Char × List Char) :=
  wsBacktrack u (wsRun u)

/-- Matches `-\s*KEY\s*(.+?)(?:\n|$)` at the current position.  The first
`\s*` cannot backtrack: `KEY` starts with a non-whitespace letter, so only
the maximal whitespace run can precede a `KEY` match. -/
def matchKeyItem (key : List Char) : List Char → Option (List Char × List Char)
  | [] => none
  | c :: t =>
    if c == '-' then
      let u := t.drop (wsRun t)
      if ciStartsWith key u then tailItem (u.drop key.length) else none
    else none

/-- Matches `[-•]\s*(.+?)(?:\n|$)` at the current position. -/
def matchBullet : List Char → Option (List Char × List Char)
  | [] => none
  | c :: t => if c == '-' || c == '•' then tailItem t else none

/-- `re.findall` driver: scan left to right, on a match continue after its
end (matches always consume at least one character, so `s.length` fuel is
enough), otherwise advance one character. -/
def findallAux (m : List Char → Option (List Char × List Char)) :
    Nat → List Char → List (List Char)
  | 0, _ => []
  | _, [] => []
  | fuel+1, c :: t =>
    match m (c :: t) with
    | some (g, rest) => g :: findallAux m fuel rest
    | none => findallAux m fuel t

def findall (m : List Char → Option (List Char × List Char)) (s : List Char) :
    List (List Char) :=
  findallAux m s.length s

/-! ### Data model (§3 of the code's implicit contracts)

Symptom records are Python dicts accessed only through `.get` with string
defaults; they are embedded as records of optional fields. -/

structure Symptom where
  date : Option String
  symptom : Option String
  severity : Option Nat
  notes : Option String

structure Medication where
  name : String
  dosage : String
  timing : String
  notes : String
deriving Repr, DecidableEq

structure FollowUp where
  action : String
  timing : String
deriving Repr, DecidableEq

structure ParsedSummary where
  patientSummary : String
  medications : List Medication
  followUps : List FollowUp
  redFlags : List String
deriving Repr, DecidableEq

structure SymptomSummaryResult where
  success : Bool
  summary : String
deriving Repr, DecidableEq

structure DocumentSummaryResult where
  success : Bool
  processedText : String
  doctorSummary : String
  patientSummary : String
  medications : List Medication
  followUps : List FollowUp
  redFlags : List String
deriving Repr, DecidableEq

structure ChatResult where
  success : Bool
  response : String
deriving Repr, DecidableEq

/-- The post-visit chat context dict `context['summary']`: `none` models a
missing or empty (falsy) dict; medication entries contribute only their
`name` value (`m.get('name', 'Unknown')`). -/
structure PostVisitSummary where
  patientSummary : Option String
  medications : List (Option String)

/-- The `context` dict of `chat`: `context.get('symptoms', [])` and
`context.get('summary', {})`. -/
structure ChatContext where
  symptoms : List Symptom
  summary : Option PostVisitSummary

/-- Rendering of `s.get('severity', 'N/A')` inside an f-string. -/
def sevStr : Option Nat → String
  | some n => toString n
  | none => "N/A"

/-! ### `_parse_document_summary` (ai_processor.py lines 257–326) -/

def labelSummary : List Char := "**PATIENT-FRIENDLY SUMMARY**".data
def labelMeds : List Char := "**MEDICATIONS**".data
def lookFollowUp : List Char := "**FOLLOW-UP".data
def lookRedFlags : List Char := "**RED FLAGS".data
def labelRedFlags : List Char := "**RED FLAGS**".data

/-- The label `\*\*FOLLOW-UP (?:ACTIONS?)?\*\*` in preference order of its
greedy optional group. -/
def followVariants : List (List Char) :=
  ["**FOLLOW-UP ACTIONS**".data, "**FOLLOW-UP ACTION**".data, "**FOLLOW-UP **".data]

/-- Step 1: `\*\*PATIENT-FRIENDLY SUMMARY\*\*[:\s]*(.+?)(?=\*\*MEDICATIONS\*\*|\*\*FOLLOW-UP|\*\*RED FLAGS|$)`;
on no match, `content[:1500] if len(content) > 1500 else content`. -/
def extract_patient_summary (content : String) : String :=
  match sectionSearch [labelSummary] [labelMeds, lookFollowUp, lookRedFlags] content.data with
  | some g => String.mk (pyStrip g)
  | none => if content.length > 1500 then content.take 1500 else content

/-- Step 2: `\*\*MEDICATIONS\*\*[:\s]*(.+?)(?=\*\*FOLLOW-UP|\*\*RED FLAGS|$)`,
then `findall(r'-\s*name:\s*(.+?)(?:\n|$)')` with fixed placeholder
dosage/timing/notes. -/
def extract_medications (content : String) : List Medication :=
  match sectionSearch [labelMeds] [lookFollowUp, lookRedFlags] content.data with
  | none => []
  | some sect =>
    (findall (matchKeyItem "name:".data) sect).map fun nm =>
      { name := String.mk (pyStrip nm), dosage := "As prescribed",
        timing := "Follow doctor instructions", notes := "" }

/-- Step 3: `\*\*FOLLOW-UP (?:ACTIONS?)?\*\*[:\s]*(.+?)(?=\*\*RED FLAGS|$)`,
then `findall(r'-\s*action:\s*(.+?)(?:\n|$)')` with placeholder timing. -/
def extract_follow_ups (content : String) : List FollowUp :=
  match sectionSearch followVariants [lookRedFlags] content.data with
  | none => []
  | some sect =>
    (findall (matchKeyItem "action:".data) sect).map fun it =>
      { action := String.mk (pyStrip it), timing := "As scheduled" }

/-- Step 4: `\*\*RED FLAGS\*\*[:\s]*(.+?)$`, then
`findall(r'[-•]\s*(.+?)(?:\n|$)')`, stripped, empty items dropped. -/
def extract_red_flags (content : String) : List String :=
  match sectionSearch [labelRedFlags] [] content.data with
  | none => []
  | some sect =>
    ((findall matchBullet sect).map fun it => String.mk (pyStrip it)).filter
      (fun s => s ≠ "")

/-- `AIProcessor._parse_document_summary`.  The Python body initialises the
four default fields and then fills each one inside a single `try` block;
since none of the `re` operations by which it fills them can raise on a
valid pattern and a string input, the result is exactly the four
independent extractions. -/
def parse_document_summary (content : String) : ParsedSummary :=
  { patientSummary := extract_patient_summary content
    medications := extract_medications content
    followUps := extract_follow_ups content
    redFlags := extract_red_flags content }

/-! ### Prompt templates (`app/prompts/prompts.py`) -/

def MEDICAL_DISCLAIMER : String :=
  "\nIMPORTANT MEDICAL DISCLAIMER:\n- This information is for EDUCATIONAL and ORGANIZATIONAL purposes ONLY\n- This is NOT medical advice, diagnosis, or treatment\n- ALWAYS consult a qualified healthcare professional for medical decisions\n- In case of emergency, call emergency services immediately\n"

/-- The part of `SYSTEM_PROMPT_BASE` preceding the `{disclaimer}` slot. -/
def systemPromptPre : String :=
  "You are CarePrep AI, a friendly medical intelligence assistant that helps patients:\n1. Prepare for doctor visits by organizing symptom information\n2. Understand medical documents in simple, plain language\n\nCRITICAL RULES YOU MUST ALWAYS FOLLOW:\n- You are NOT a doctor and you do NOT provide medical advice\n- You do NOT diagnose conditions\n- You do NOT recommend treatments or medications\n- You ALWAYS suggest consulting healthcare professionals\n- You speak in friendly, calm, non-technical language\n- You help ORGANIZE and UNDERSTAND information, not make medical decisions\n\n"

def SYSTEM_PROMPT_BASE : String := systemPromptPre ++ MEDICAL_DISCLAIMER ++ "\n"

/-- One line of the symptom log rendered by `get_symptom_summary_prompt`. -/
def symptomLogLine (s : Symptom) : String :=
  "- " ++ s.date.getD "Unknown date" ++ ": " ++ s.symptom.getD "Unknown" ++
    " (Severity: " ++ sevStr s.severity ++ "/10) - Notes: " ++ s.notes.getD "None"

def get_symptom_summary_prompt (symptoms : List Symptom) : String :=
  let symptoms_text := String.intercalate "\n" (symptoms.map symptomLogLine)
  SYSTEM_PROMPT_BASE ++
    ("\n\nTASK: Create a clear, organized summary of the patient\x27s symptoms that they can share with their doctor.\n\nPATIENT\x27S SYMPTOM LOG:\n" ++
      (symptoms_text ++
        "\n\nPlease provide:\n1. A brief overview of the symptom patterns\n2. Timeline of symptoms (when they started, any changes)\n3. Severity trends (are symptoms getting better, worse, or stable?)\n4. Key points the patient should mention to their doctor\n5. Suggested questions the patient might want to ask\n\nRemember: This is to help the patient ORGANIZE information for their doctor, not to provide medical advice.\n\nFormat the response in a clear, easy-to-read way that the patient can share with their healthcare provider."))

def get_document_summary_prompt (document_text : String) : String :=
  SYSTEM_PROMPT_BASE ++
    ("\n\nTASK: Help the patient understand their medical document by explaining it in simple terms.\n\nDOCUMENT TEXT:\n" ++
      (document_text ++
        "\n\nPlease provide:\n\n1. **PATIENT-FRIENDLY SUMMARY** (3-5 paragraphs)\n   - Explain what the document says in simple, everyday language\n   - Avoid medical jargon - if you must use a medical term, explain it\n   - Focus on what the patient needs to know\n\n2. **MEDICATIONS** (if any mentioned)\n   For each medication, provide in JSON-like format:\n   - name: medication name\n   - dosage: how much to take\n   - timing: when to take it\n   - notes: any special instructions\n\n3. **FOLLOW-UP ACTIONS** (if any)\n   List any follow-up appointments, tests, or actions mentioned:\n   - action: what needs to be done\n   - timing: when it should be done\n\n4. **RED FLAGS** (warning signs to watch for)\n   List any symptoms or situations mentioned that would require immediate medical attention.\n   These are for AWARENESS only - always call emergency services for actual emergencies.\n\nFormat your response as structured sections that can be easily parsed."))

/-- One line of the recent-symptom context of the pre-visit chat prompt. -/
def preVisitSymptomLine (s : Symptom) : String :=
  "- " ++ s.symptom.getD "Unknown" ++ " (Severity: " ++ sevStr s.severity ++
    "/10) on " ++ s.date.getD "Unknown date"

def get_pre_visit_chat_prompt (message : String) (symptoms : List Symptom) : String :=
  let symptoms_context :=
    if symptoms.isEmpty then ""
    else
      "Patient\x27s recent symptoms:\n" ++
        String.intercalate "\n" ((symptoms.take 10).map preVisitSymptomLine)
  SYSTEM_PROMPT_BASE ++
    ("\n\nMODE: PRE-VISIT PREPARATION\nYou are helping the patient prepare for their upcoming doctor\x27s appointment.\n\n" ++
      ((if symptoms_context ≠ "" then symptoms_context else "No symptoms logged yet.") ++
        ("\n\nPATIENT\x27S QUESTION: " ++
          (message ++
            "\n\nProvide a helpful, friendly response that:\n1. Helps them organize their thoughts for the doctor visit\n2. Suggests what information might be useful to share\n3. Recommends questions they might want to ask\n4. Reminds them that their doctor is the best source for medical advice\n\nKeep your response conversational and supportive. Do NOT provide medical advice or diagnoses.\n\nEnd your response with a brief reminder to discuss concerns with their healthcare provider."))))

def get_post_visit_chat_prompt (message : String) (summary : Option PostVisitSummary) :
    String :=
  let summary_context :=
    match summary with
    | none => ""
    | some sm =>
      "\nRecent visit summary:\n" ++ sm.patientSummary.getD "No summary available" ++
        "\n\nMedications: " ++
        String.intercalate ", " (sm.medications.map (fun m => m.getD "Unknown")) ++ "\n"
  SYSTEM_PROMPT_BASE ++
    ("\n\nMODE: POST-VISIT UNDERSTANDING\nYou are helping the patient understand their recent medical visit and documents.\n\n" ++
      ((if summary_context ≠ "" then summary_context else "No visit summary available.") ++
        ("\n\nPATIENT\x27S QUESTION: " ++
          (message ++
            "\n\nProvide a helpful, friendly response that:\n1. Helps them understand medical terms in simple language\n2. Clarifies any confusing information from their visit\n3. Helps them remember important follow-up actions\n4. Encourages them to contact their doctor if they have medical concerns\n\nKeep your response conversational and reassuring. Do NOT provide medical advice.\n\nIf they ask about changing medications or treatments, remind them to consult their healthcare provider.\n\nEnd your response with a brief reminder that you\x27re here to help them understand, not to provide medical advice."))))

def ocrPromptHeader : String :=
  "Clean up the following OCR-extracted text from a medical document.\nFix obvious OCR errors, correct spacing issues, and organize the text into readable paragraphs.\nKeep all medical information intact - do not add, remove, or change medical details.\n\nRAW OCR TEXT:\n"

def ocrPromptFooter : String :=
  "\n\nProvide the cleaned, readable version of the text."

def get_ocr_cleanup_prompt (raw_text : String) : String :=
  ocrPromptHeader ++ raw_text ++ ocrPromptFooter

/-! ### Fallback synthesizers (`ai_processor.py` lines 328–411) -/

/-- One bullet of `_fallback_symptom_summary`'s symptom list. -/
def fallbackSymptomLine (s : Symptom) : String :=
  "• " ++ s.date.getD "Unknown date" ++ ": " ++ s.symptom.getD "Unknown symptom" ++
    " (Severity: " ++ sevStr s.severity ++ "/10)"

/-- Fixed template segments of `_fallback_symptom_summary`'s f-string. -/
def fallbackSummaryHead : String :=
  "**Symptom Summary for Your Doctor**\n\nYou have logged "

def fallbackSummaryMid : String :=
  " symptom(s). Here\x27s a summary to share with your healthcare provider:\n\n"

def fallbackSummarySteps : String :=
  "\n\n**Next Steps:**\n• Discuss these symptoms with your doctor\n• Mention any patterns you\x27ve noticed\n• Ask about possible causes and treatments\n\n"

def fallbackSymptomSummaryText (symptoms : List Symptom) : String :=
  fallbackSummaryHead ++ toString symptoms.length ++ fallbackSummaryMid ++
    String.intercalate "\n" ((symptoms.take 10).map fallbackSymptomLine) ++
    fallbackSummarySteps ++ MEDICAL_DISCLAIMER

def fallback_symptom_summary (symptoms : List Symptom) : SymptomSummaryResult :=
  { success := true
    summary := fallbackSymptomSummaryText symptoms }

def fallback_document_summary (document_text : String) : DocumentSummaryResult :=
  let preview :=
    if document_text.length > 500 then document_text.take 500 ++ "..." else document_text
  { success := true
    processedText := document_text
    doctorSummary := preview
    patientSummary :=
      "Your document has been processed. Here\x27s a preview:\n\n" ++ preview ++
        "\n\nFor a detailed explanation of this document, please consult with your healthcare provider.\n\n" ++
        MEDICAL_DISCLAIMER
    medications := []
    followUps := [{ action := "Discuss this document with your healthcare provider",
                    timing := "At your next appointment" }]
    redFlags := ["Contact your doctor if you have questions about this document"] }

/-- Fixed part of the pre-visit fallback template before the echoed question. -/
def fallbackChatPreHead : String :=
  "I understand you have a question about preparing for your doctor visit.\n\nWhile I can\x27t provide specific advice right now, here are some general tips:\n\n1. **Write down your symptoms** - Note when they started, how often they occur, and their severity\n2. **List your medications** - Include supplements and over-the-counter drugs\n3. **Prepare your questions** - Write them down so you don\x27t forget\n4. **Bring relevant documents** - Test results, previous records, etc.\n\nYour question was: "

def fallbackChatPreSuffix : String :=
  "\n\nPlease discuss this with your healthcare provider during your visit.\n\n" ++
    MEDICAL_DISCLAIMER

/-- Fixed part of the post-visit fallback template before the echoed question. -/
def fallbackChatPostHead : String :=
  "I understand you have a question about your visit notes.\n\nWhile I can\x27t process your specific question right now, here\x27s general guidance:\n\n1. **Review your documents** - Read through them carefully\n2. **Note any unclear terms** - Ask your doctor to explain\n3. **Follow medication instructions** - Take as prescribed\n4. **Schedule follow-ups** - As recommended by your doctor\n\nYour question was: "

def fallbackChatPostSuffix : String :=
  "\n\nFor specific questions about your treatment, please contact your healthcare provider.\n\n" ++
    MEDICAL_DISCLAIMER

def fallback_chat_response (message : String) (mode : String) : ChatResult :=
  if mode = "pre_visit" then
    { success := true
      response := fallbackChatPreHead ++ "\x22" ++ message ++ "\x22" ++ fallbackChatPreSuffix }
  else
    { success := true
      response := fallbackChatPostHead ++ "\x22" ++ message ++ "\x22" ++ fallbackChatPostSuffix }

/-! ### Operation-level model of the remote client

At the level of the four public operations, `_make_request` is abstracted
to an oracle: `unavailable` models `self.available = False` (no
credential), `exception` models an exception raised anywhere inside the
operation's `try` block, and `respond f` maps the prompt that would be
POSTed to the `Option String` that `_make_request` returns for it. -/

inductive RemoteBehavior where
  | unavailable : RemoteBehavior
  | exception : RemoteBehavior
  | respond : (String → Option String) → RemoteBehavior

/-- `self.available` as a predicate on the modelled behavior. -/
def RemoteBehavior.isAvailable : RemoteBehavior → Bool
  | .unavailable => false
  | _ => true

/-- Python truthiness of `content : Optional[str]` (`if content:`). -/
def truthy : Option String → Bool
  | some c => c ≠ ""
  | none => false

/-! ### The four public operations (`ai_processor.py` lines 113–255) -/

/-- `AIProcessor.generate_symptom_summary`. -/
def generate_symptom_summary (symptoms : List Symptom) (rb : RemoteBehavior) :
    SymptomSummaryResult :=
  match rb with
  | .unavailable => fallback_symptom_summary symptoms
  | .exception => fallback_symptom_summary symptoms
  | .respond f =>
    match f (get_symptom_summary_prompt symptoms) with
    | some c => if c ≠ "" then { success := true, summary := c }
                else fallback_symptom_summary symptoms
    | none => fallback_symptom_summary symptoms

/-- `AIProcessor.summarize_document`.  On a usable reply the parsed fields
are read back with `.get`, whose defaults are dead because
`_parse_document_summary` always populates every key. -/
def summarize_document (document_text : String) (rb : RemoteBehavior) :
    DocumentSummaryResult :=
  match rb with
  | .unavailable => fallback_document_summary document_text
  | .exception => fallback_document_summary document_text
  | .respond f =>
    match f (get_document_summary_prompt document_text) with
    | some c =>
      if c ≠ "" then
        let parsed := parse_document_summary c
        { success := true
          processedText := document_text
          doctorSummary :=
            if document_text.length > 1000 then document_text.take 1000 ++ "..."
            else document_text
          patientSummary := parsed.patientSummary
          medications := parsed.medications
          followUps := parsed.followUps
          redFlags := parsed.redFlags }
      else fallback_document_summary document_text
    | none => fallback_document_summary document_text

/-- The prompt `AIProcessor.chat` sends: pre-visit exactly when
`mode == 'pre_visit'`, otherwise post-visit. -/
def chatPrompt (message : String) (mode : String) (context : ChatContext) : String :=
  if mode = "pre_visit" then get_pre_visit_chat_prompt message context.symptoms
  else get_post_visit_chat_prompt message context.summary

/-- `AIProcessor.chat`. -/
def chat (message : String) (mode : String) (context : ChatContext)
    (rb : RemoteBehavior) : ChatResult :=
  match rb with
  | .unavailable => fallback_chat_response message mode
  | .exception => fallback_chat_response message mode
  | .respond f =>
    match f (chatPrompt message mode context) with
    | some c => if c ≠ "" then { success := true, response := c }
                else fallback_chat_response message mode
    | none => fallback_chat_response message mode

/-- `AIProcessor.cleanup_ocr_text`. -/
def cleanup_ocr_text (raw_text : String) (rb : RemoteBehavior) : String :=
  if !rb.isAvailable || raw_text.length < 50 then raw_text
  else
    match rb with
    | .unavailable => raw_text
    | .exception => raw_text
    | .respond f =>
      match f (get_ocr_cleanup_prompt raw_text) with
      | some c => if c ≠ "" then c else raw_text
      | none => raw_text

/-! ### `AIProcessor._make_request` retry loop (lines 41–111)

Each of the up to `max_retries = 3` iterations issues one HTTP POST whose
outcome is drawn from an attempt-indexed oracle.  `success choices`
models a 2xx response whose parsed JSON contains the given
`choices[i].message.content` list (`none` models a body without a
`choices` key). -/

inductive AttemptOutcome where
  | rateLimited : AttemptOutcome
  | timeoutErr : AttemptOutcome
  | requestErr : AttemptOutcome
  | success : Option (List String) → AttemptOutcome

/-- Observable outcome of a `_make_request` run: the returned value, the
number of POST attempts issued, and the total seconds slept. -/
structure RunResult where
  result : Option String
  attempts : Nat
  waitSeconds : Nat
deriving Repr, DecidableEq

/-- `retry_delay = 1`. -/
def retryDelay : Nat := 1

/-- The `for attempt in range(max_retries)` loop.  `rem + 1` is the number
of iterations still allowed, so with `attempt + (rem + 1) = max_retries`
the source's `attempt < max_retries - 1` is exactly `rem ≠ 0`.
On 429 the loop sleeps `retry_delay * 2 ** attempt` and continues (also on
the last iteration, after which the loop falls through to `return None`);
a 2xx response returns the first choice, or `None` when the envelope has
no nonempty `choices`; timeouts and other request errors sleep
`retry_delay` and continue unless this was the last iteration. -/
def runLoop (oc : Nat → AttemptOutcome) : Nat → Nat → RunResult
  | _, 0 => { result := none, attempts := 0, waitSeconds := 0 }
  | attempt, rem + 1 =>
    match oc attempt with
    | .rateLimited =>
      let r := runLoop oc (attempt + 1) rem
      { result := r.result, attempts := r.attempts + 1,
        waitSeconds := retryDelay * 2 ^ attempt + r.waitSeconds }
    | .success choices =>
      match choices with
      | some (c :: _) => { result := some c, attempts := 1, waitSeconds := 0 }
      | _ => { result := none, attempts := 1, waitSeconds := 0 }
    | .timeoutErr =>
      if rem = 0 then { result := none, attempts := 1, waitSeconds := 0 }
      else
        let r := runLoop oc (attempt + 1) rem
        { result := r.result, attempts := r.attempts + 1,
          waitSeconds := retryDelay + r.waitSeconds }
    | .requestErr =>
      if rem = 0 then { result := none, attempts := 1, waitSeconds := 0 }
      else
        let r := runLoop oc (attempt + 1) rem
        { result := r.result, attempts := r.attempts + 1,
          waitSeconds := retryDelay + r.waitSeconds }

/-- `_make_request`: immediately `None` without any attempt when no
credential is configured, otherwise the 3-attempt retry loop. -/
def make_request (available : Bool) (oc : Nat → AttemptOutcome) : RunResult :=
  if available then runLoop oc 0 3
  else { result := none, attempts := 0, waitSeconds := 0 }

/-! ### General lemmas about substring containment and append -/

theorem strData_append (s t : String) : (s ++ t).data = s.data ++ t.data := rfl

theorem listContains_of_isPrefixOf {p l : List Char} (h : p.isPrefixOf l = true) :
    listContains p l = true := by
  cases l <;> simp [listContains, h]

theorem listContains_append_suffix (p x l : List Char) (h : listContains p l = true) :
    listContains p (x ++ l) = true := by
  induction x with
  | nil => simpa
  | cons c t ih => simp [listContains, ih]

theorem isPrefixOf_append_right {p l : List Char} (r : List Char)
    (h : p.isPrefixOf l = true) : p.isPrefixOf (l ++ r) = true := by
  rw [List.isPrefixOf_iff_prefix] at h ⊢
  exact h.trans (List.prefix_append l r)

theorem listContains_append_left (p l r : List Char) (h : listContains p l = true) :
    listContains p (l ++ r) = true := by
  induction l with
  | nil =>
    have hp : p.isPrefixOf [] = true := by simpa [listContains] using h
    have hpe : p = [] := by simpa [List.isPrefixOf_iff_prefix] using hp
    subst hpe
    exact listContains_of_isPrefixOf (by simp [List.isPrefixOf_iff_prefix])
  | cons c t ih =>
    simp only [listContains, Bool.or_eq_true] at h
    simp only [List.cons_append, listContains, Bool.or_eq_true]
    rcases h with h | h
    · exact Or.inl (isPrefixOf_append_right r h)
    · exact Or.inr (ih h)

theorem strContains_data (hay pat : String) (x y : List Char)
    (h : hay.data = x ++ pat.data ++ y) : strContains hay pat = true := by
  unfold strContains
  rw [h, List.append_assoc]
  refine listContains_append_suffix _ _ _ (listContains_append_left _ _ _ ?_)
  exact listContains_of_isPrefixOf (by simp [List.isPrefixOf_iff_prefix])

theorem strContains_left (p b : String) : strContains (p ++ b) p = true :=
  strContains_data _ _ [] b.data (by simp [strData_append])

theorem strContains_right (a p : String) : strContains (a ++ p) p = true :=
  strContains_data _ _ a.data [] (by simp [strData_append])

theorem strContains_append_left (s t p : String) (h : strContains s p = true) :
    strContains (s ++ t) p = true := by
  unfold strContains at h ⊢
  rw [strData_append]
  exact listContains_append_left _ _ _ h

theorem strContains_append_right (s t p : String) (h : strContains t p = true) :
    strContains (s ++ t) p = true := by
  unfold strContains at h ⊢
  rw [strData_append]
  exact listContains_append_suffix _ _ _ h

theorem str_append_ne_empty (a b : String) (h : a ≠ "") : a ++ b ≠ "" := by
  intro he
  apply h
  have hd := congrArg String.data he
  rw [strData_append] at hd
  exact String.ext ((List.append_eq_nil.mp hd).1.trans rfl)

theorem str_ne_of_get (s t : String) (i : Nat) (h : s.data[i]? ≠ t.data[i]?) :
    s ≠ t := fun he => h (by rw [he])

theorem get_append_left (s t : String) (i : Nat) (h : i < s.data.length) :
    (s ++ t).data[i]? = s.data[i]? := by
  rw [strData_append, List.getElem?_append, if_pos h]

theorem lt_length_append (s t : String) (i : Nat) (h : i < s.data.length) :
    i < (s ++ t).data.length := by
  rw [strData_append]
  simp only [List.length_append]
  omega

/-- When a label occurs nowhere (case-insensitively) in the text, its
single-variant section regex cannot match. -/
theorem sectionSearch_eq_none_of_not_ciOccurs (pat : List Char)
    (lks : List (List Char)) (s : List Char) (h : ciOccurs pat s = false) :
    sectionSearch [pat] lks s = none := by
  induction s with
  | nil => rfl
  | cons c t ih =>
    simp only [ciOccurs, Bool.or_eq_false_iff] at h
    simp [sectionSearch, firstVariantRest, h.1, ih h.2]

/-! ### Claim theorems -/

/-- C1: for every input, the three dict-returning core operations —
`generate_symptom_summary`, `summarize_document` and `chat` — return a
result whose `success` field is `true`, whatever the remote client does
(unavailable, `None`, empty reply, any reply text) and even when an
exception occurs inside the operation; no hard failure reaches the caller. -/
theorem C1_no_hard_failure (symptoms : List Symptom) (text msg mode : String)
    (ctx : ChatContext) (rb : RemoteBehavior) :
    (generate_symptom_summary symptoms rb).success = true ∧
    (summarize_document text rb).success = true ∧
    (chat msg mode ctx rb).success = true := by
  have hfc : ∀ m md, (fallback_chat_response m md).success = true := by
    intro m md
    unfold fallback_chat_response
    split <;> rfl
  refine ⟨?_, ?_, ?_⟩
  · cases rb with
    | unavailable => rfl
    | exception => rfl
    | respond f =>
      simp only [generate_symptom_summary]
      cases h : f (get_symptom_summary_prompt symptoms) with
      | none => rfl
      | some c => by_cases hc : c = "" <;> simp [hc, fallback_symptom_summary]
  · cases rb with
    | unavailable => rfl
    | exception => rfl
    | respond f =>
      simp only [summarize_document]
      cases h : f (get_document_summary_prompt text) with
      | none => rfl
      | some c => by_cases hc : c = "" <;> simp [hc, fallback_document_summary]
  · cases rb with
    | unavailable => exact hfc msg mode
    | exception => exact hfc msg mode
    | respond f =>
      simp only [chat]
      cases h : f (chatPrompt msg mode ctx) with
      | none => exact hfc msg mode
      | some c => by_cases hc : c = "" <;> simp [hc, hfc msg mode]

set_option maxRecDepth 100000 in
/-- C3: on the concrete four-section reply text of the spec's scenario,
`_parse_document_summary` extracts exactly the expected patient summary,
medication, follow-up and red flag. -/
theorem C3_concrete_extraction :
    parse_document_summary "**PATIENT-FRIENDLY SUMMARY** You have a mild cold.\n**MEDICATIONS**\n- name: Ibuprofen\n**FOLLOW-UP ACTIONS**\n- action: Rest for 3 days\n**RED FLAGS**\n- Fever above 103°F" =
      { patientSummary := "You have a mild cold."
        medications := [{ name := "Ibuprofen", dosage := "As prescribed",
                          timing := "Follow doctor instructions", notes := "" }]
        followUps := [{ action := "Rest for 3 days", timing := "As scheduled" }]
        redFlags := ["Fever above 103°F"] } := by
  decide

/-- C4: `_parse_document_summary` is total and field-wise independent —
its result is exactly the four independent section extractions — and when
the `**MEDICATIONS**` label occurs nowhere (case-insensitively) in the
reply, `medications` is empty while the other three fields are still the
extractions of their own sections. -/
theorem C4_partial_extraction (content : String) :
    parse_document_summary content =
      { patientSummary := extract_patient_summary content
        medications := extract_medications content
        followUps := extract_follow_ups content
        redFlags := extract_red_flags content } ∧
    (ciOccurs labelMeds content.data = false →
      (parse_document_summary content).medications = []) := by
  refine ⟨rfl, fun h => ?_⟩
  show extract_medications content = []
  unfold extract_medications
  rw [sectionSearch_eq_none_of_not_ciOccurs _ _ _ h]

/-- Witness for C4 at a concrete reply with no MEDICATIONS label. -/
theorem C4_partial_extraction_witness :
    parse_document_summary "**PATIENT-FRIENDLY SUMMARY** hi.\n**RED FLAGS**\n- A" =
      { patientSummary :=
          extract_patient_summary "**PATIENT-FRIENDLY SUMMARY** hi.\n**RED FLAGS**\n- A"
        medications :=
          extract_medications "**PATIENT-FRIENDLY SUMMARY** hi.\n**RED FLAGS**\n- A"
        followUps :=
          extract_follow_ups "**PATIENT-FRIENDLY SUMMARY** hi.\n**RED FLAGS**\n- A"
        redFlags :=
          extract_red_flags "**PATIENT-FRIENDLY SUMMARY** hi.\n**RED FLAGS**\n- A" } ∧
    (parse_document_summary "**PATIENT-FRIENDLY SUMMARY** hi.\n**RED FLAGS**\n- A").medications = [] :=
  ⟨(C4_partial_extraction _).1, (C4_partial_extraction _).2 (by decide)⟩

/-- C6: `cleanup_ocr_text` is the identity for every input shorter than 50
characters — whatever the remote behavior, so in particular nothing the
client could return is ever consulted — and for every input it returns
the text unchanged when the remote call yields `None` or an exception
occurs. -/
theorem C6_ocr_identity (raw : String) (rb : RemoteBehavior)
    (f : String → Option String) :
    (raw.length < 50 → cleanup_ocr_text raw rb = raw) ∧
    (f (get_ocr_cleanup_prompt raw) = none →
      cleanup_ocr_text raw (.respond f) = raw) ∧
    cleanup_ocr_text raw .exception = raw := by
  refine ⟨fun hlen => ?_, fun hf => ?_, ?_⟩
  · cases rb <;> simp [cleanup_ocr_text, RemoteBehavior.isAvailable, hlen]
  · by_cases hlen : raw.length < 50 <;>
      simp [cleanup_ocr_text, RemoteBehavior.isAvailable, hlen, hf]
  · by_cases hlen : raw.length < 50 <;>
      simp [cleanup_ocr_text, RemoteBehavior.isAvailable, hlen]

/-- Witness for C6: a 9-character input under a responding client, and a
49-plus-character input whose remote call returns `None`. -/
theorem C6_ocr_identity_witness :
    cleanup_ocr_text "short ocr" (.respond fun _ => some "CHANGED") = "short ocr" ∧
    cleanup_ocr_text "0123456789012345678901234567890123456789012345678901234"
        (.respond fun _ => none) =
      "0123456789012345678901234567890123456789012345678901234" ∧
    cleanup_ocr_text "short ocr" .exception = "short ocr" :=
  ⟨(C6_ocr_identity "short ocr" (.respond fun _ => some "CHANGED")
      (fun _ => none)).1 (by decide),
   (C6_ocr_identity "0123456789012345678901234567890123456789012345678901234"
      (.respond fun _ => none) (fun _ => none)).2.1 rfl,
   (C6_ocr_identity "short ocr" .unavailable (fun _ => none)).2.2⟩

/-- C9: on a usable remote reply, `summarize_document`'s `doctorSummary`
is the input text itself when it has at most 1000 characters and its
first 1000 characters followed by `"..."` otherwise, independent of the
reply content. -/
theorem C9_doctor_summary_truncation (text : String) (f g : String → Option String)
    (c d : String) (hf : f (get_document_summary_prompt text) = some c) (hc : c ≠ "")
    (hg : g (get_document_summary_prompt text) = some d) (hd : d ≠ "") :
    (summarize_document text (.respond f)).doctorSummary =
      (if text.length > 1000 then text.take 1000 ++ "..." else text) ∧
    (summarize_document text (.respond f)).doctorSummary =
      (summarize_document text (.respond g)).doctorSummary := by
  constructor <;> simp [summarize_document, hf, hg, hc, hd]

/-- Witness for C9 at a short document and two different replies. -/
theorem C9_doctor_summary_truncation_witness :
    (summarize_document "lab report" (.respond fun _ => some "reply one")).doctorSummary =
      (if ("lab report" : String).length > 1000 then ("lab report" : String).take 1000 ++ "..."
       else "lab report") ∧
    (summarize_document "lab report" (.respond fun _ => some "reply one")).doctorSummary =
      (summarize_document "lab report" (.respond fun _ => some "a different reply")).doctorSummary :=
  C9_doctor_summary_truncation "lab report" (fun _ => some "reply one")
    (fun _ => some "a different reply") "reply one" "a different reply"
    rfl (by decide) rfl (by decide)

/-- C10: `chat` never validates `mode`: for every mode string other than
the exact `"pre_visit"`, the prompt it sends is the post-visit prompt
built from the context's summary, and the whole operation behaves exactly
as if the mode were `"post_visit"`, on the remote and fallback paths alike. -/
theorem C10_mode_not_validated (msg mode : String) (ctx : ChatContext)
    (rb : RemoteBehavior) (h : mode ≠ "pre_visit") :
    chatPrompt msg mode ctx = get_post_visit_chat_prompt msg ctx.summary ∧
    chat msg mode ctx rb = chat msg "post_visit" ctx rb := by
  have hpost : ("post_visit" : String) ≠ "pre_visit" := by decide
  constructor
  · simp [chatPrompt, h]
  · cases rb with
    | unavailable => simp [chat, fallback_chat_response, h, hpost]
    | exception => simp [chat, fallback_chat_response, h, hpost]
    | respond f =>
      simp only [chat, chatPrompt, if_neg h, if_neg hpost]
      cases hf : f (get_post_visit_chat_prompt msg ctx.summary) with
      | none => simp [fallback_chat_response, h, hpost]
      | some c =>
        by_cases hc : c = "" <;> simp [hc, fallback_chat_response, h, hpost]

/-- Witness for C10 at the misspelled mode `"previsit"`. -/
theorem C10_mode_not_validated_witness :
    chatPrompt "hi" "previsit" { symptoms := [], summary := none } =
      get_post_visit_chat_prompt "hi" none ∧
    chat "hi" "previsit" { symptoms := [], summary := none } .unavailable =
      chat "hi" "post_visit" { symptoms := [], summary := none } .unavailable :=
  C10_mode_not_validated "hi" "previsit" { symptoms := [], summary := none }
    .unavailable (by decide)

/-- The retry loop never makes more attempts than it has iterations left. -/
theorem runLoop_attempts_le (oc : Nat → AttemptOutcome) :
    ∀ rem a, (runLoop oc a rem).attempts ≤ rem := by
  intro rem
  induction rem with
  | zero => intro a; simp [runLoop]
  | succ n ih =>
    intro a
    simp only [runLoop]
    cases oc a with
    | rateLimited => simpa using Nat.succ_le_succ (ih (a + 1))
    | timeoutErr =>
      by_cases hn : n = 0
      · simp [hn]
      · simpa [hn] using Nat.succ_le_succ (ih (a + 1))
    | requestErr =>
      by_cases hn : n = 0
      · simp [hn]
      · simpa [hn] using Nat.succ_le_succ (ih (a + 1))
    | success choices =>
      cases choices with
      | none => simp
      | some l => cases l <;> simp

/-- C2: with a credential configured, `_make_request` issues at most 3
POST attempts; a run of `k` rate-limit responses followed by a 2xx reply
with at least one choice returns that choice's content after exactly
`k + 1` attempts, having slept the exponential-backoff total
`2^0 + … + 2^(k-1) = 2^k - 1` seconds (base delay 1s); three consecutive
timeouts return `none` after exactly 3 attempts (no fourth) and two fixed
1-second waits; a timeout or transport error followed by a success
returns the content on the second attempt after one fixed 1-second wait. -/
theorem C2_retry_policy (oc : Nat → AttemptOutcome) :
    (make_request true oc).attempts ≤ 3 ∧
    (∀ k c cs, k < 3 → (∀ i, i < k → oc i = .rateLimited) →
      oc k = .success (some (c :: cs)) →
      (make_request true oc).result = some c ∧
      (make_request true oc).attempts = k + 1 ∧
      (make_request true oc).waitSeconds = 2 ^ k - 1) ∧
    ((∀ i, i < 3 → oc i = .timeoutErr) →
      (make_request true oc).result = none ∧
      (make_request true oc).attempts = 3 ∧
      (make_request true oc).waitSeconds = 2 * retryDelay) ∧
    (∀ c cs, oc 0 = .timeoutErr → oc 1 = .success (some (c :: cs)) →
      (make_request true oc).result = some c ∧
      (make_request true oc).attempts = 2 ∧
      (make_request true oc).waitSeconds = retryDelay) ∧
    (∀ c cs, oc 0 = .requestErr → oc 1 = .success (some (c :: cs)) →
      (make_request true oc).result = some c ∧
      (make_request true oc).attempts = 2 ∧
      (make_request true oc).waitSeconds = retryDelay) := by
  refine ⟨?_, ?_, ?_, ?_, ?_⟩
  · simpa [make_request] using runLoop_attempts_le oc 3 0
  · intro k c cs hk hall hs
    have hk3 : k = 0 ∨ k = 1 ∨ k = 2 := by omega
    rcases hk3 with rfl | rfl | rfl
    · simp [make_request, runLoop, hs]
    · have h0 := hall 0 (by omega)
      simp [make_request, runLoop, h0, hs, retryDelay]
    · have h0 := hall 0 (by omega)
      have h1 := hall 1 (by omega)
      simp [make_request, runLoop, h0, h1, hs, retryDelay]
  · intro hall
    have h0 := hall 0 (by omega)
    have h1 := hall 1 (by omega)
    have h2 := hall 2 (by omega)
    simp [make_request, runLoop, h0, h1, h2, retryDelay]
  · intro c cs h0 h1
    simp [make_request, runLoop, h0, h1, retryDelay]
  · intro c cs h0 h1
    simp [make_request, runLoop, h0, h1, retryDelay]

/-- Oracle for the C2 witness: one rate-limit response, then a success. -/
def c2Oracle : Nat → AttemptOutcome :=
  fun i => if i = 0 then .rateLimited else .success (some ["ok"])

/-- Witness for C2: under one 429 then a success, the loop returns the
content after exactly 2 attempts and a 1-second backoff. -/
theorem C2_retry_policy_witness :
    (make_request true c2Oracle).attempts ≤ 3 ∧
    (make_request true c2Oracle).result = some "ok" ∧
    (make_request true c2Oracle).attempts = 2 ∧
    (make_request true c2Oracle).waitSeconds = 1 := by
  have h := C2_retry_policy c2Oracle
  have h429 := h.2.1 1 "ok" [] (by omega)
    (fun i hi => by
      have : i = 0 := by omega
      subst this
      rfl)
    rfl
  exact ⟨h.1, h429.1, h429.2.1, h429.2.2⟩

/-! ### Facts about the fixed templates -/

theorem spb_contains_disclaimer :
    strContains SYSTEM_PROMPT_BASE MEDICAL_DISCLAIMER = true := by
  unfold SYSTEM_PROMPT_BASE
  exact strContains_append_left _ _ _ (strContains_right _ _)

/-- Any prompt of the shape `SYSTEM_PROMPT_BASE ++ tail` contains both the
role preamble and the disclaimer. -/
theorem contains_both (tail : String) :
    strContains (SYSTEM_PROMPT_BASE ++ tail) SYSTEM_PROMPT_BASE = true ∧
    strContains (SYSTEM_PROMPT_BASE ++ tail) MEDICAL_DISCLAIMER = true :=
  ⟨strContains_left _ _, strContains_append_left _ _ _ spb_contains_disclaimer⟩

theorem fallbackSymptomSummaryText_ne_empty (symptoms : List Symptom) :
    fallbackSymptomSummaryText symptoms ≠ "" := by
  unfold fallbackSymptomSummaryText
  refine str_append_ne_empty _ _ (str_append_ne_empty _ _ (str_append_ne_empty _ _
    (str_append_ne_empty _ _ (str_append_ne_empty _ _ ?_))))
  decide

theorem fallbackSymptomSummaryText_contains_disclaimer (symptoms : List Symptom) :
    strContains (fallbackSymptomSummaryText symptoms) MEDICAL_DISCLAIMER = true := by
  unfold fallbackSymptomSummaryText
  exact strContains_right _ _

/-- Remote behavior producing the fixed reply `"hello"`. -/
def c5Reply : RemoteBehavior := .respond fun _ => some "hello"

/-- C5 fails as stated: on the successful remote path the summary is the
model's reply verbatim, so a reply without the disclaimer yields a
success result whose summary does not contain the disclaimer. -/
theorem C5_counterexample :
    (generate_symptom_summary [] c5Reply).success = true ∧
    (generate_symptom_summary [] c5Reply).summary = "hello" ∧
    strContains (generate_symptom_summary [] c5Reply).summary MEDICAL_DISCLAIMER
      = false := by
  refine ⟨rfl, rfl, ?_⟩
  decide

/-- C5 amended: for every symptom list and remote behavior the result has
`success = true` and a non-empty summary; the fallback summary always
contains the disclaimer, and the result is either exactly the fallback
(unavailable client, `None`, empty reply, or exception) or the non-empty
model reply verbatim. -/
theorem C5_success_and_disclaimer (symptoms : List Symptom) (rb : RemoteBehavior) :
    (generate_symptom_summary symptoms rb).success = true ∧
    (generate_symptom_summary symptoms rb).summary ≠ "" ∧
    strContains (fallback_symptom_summary symptoms).summary MEDICAL_DISCLAIMER
      = true ∧
    (generate_symptom_summary symptoms rb = fallback_symptom_summary symptoms ∨
      ∃ f c, rb = .respond f ∧ f (get_symptom_summary_prompt symptoms) = some c ∧
        c ≠ "" ∧ generate_symptom_summary symptoms rb =
          { success := true, summary := c }) := by
  have key : generate_symptom_summary symptoms rb = fallback_symptom_summary symptoms ∨
      ∃ f c, rb = .respond f ∧ f (get_symptom_summary_prompt symptoms) = some c ∧
        c ≠ "" ∧ generate_symptom_summary symptoms rb =
          { success := true, summary := c } := by
    cases rb with
    | unavailable => exact Or.inl rfl
    | exception => exact Or.inl rfl
    | respond f =>
      cases hf : f (get_symptom_summary_prompt symptoms) with
      | none => exact Or.inl (by simp [generate_symptom_summary, hf])
      | some c =>
        by_cases hc : c = ""
        · exact Or.inl (by simp [generate_symptom_summary, hf, hc])
        · exact Or.inr ⟨f, c, rfl, hf, hc,
            by simp [generate_symptom_summary, hf, hc]⟩
  refine ⟨?_, ?_, fallbackSymptomSummaryText_contains_disclaimer symptoms, key⟩
  · rcases key with h | ⟨f, c, _, _, _, h⟩
    · rw [h]
      rfl
    · rw [h]
  · rcases key with h | ⟨f, c, _, _, hc, h⟩
    · rw [h]
      exact fallbackSymptomSummaryText_ne_empty symptoms
    · rw [h]
      exact hc

set_option maxRecDepth 100000 in
/-- C7 fails as stated: the OCR-cleanup prompt built for a concrete input
contains neither the fixed system/role preamble nor the safety disclaimer
block. -/
theorem C7_counterexample :
    strContains (get_ocr_cleanup_prompt "Take 5mg daily") SYSTEM_PROMPT_BASE
      = false ∧
    strContains (get_ocr_cleanup_prompt "Take 5mg daily") MEDICAL_DISCLAIMER
      = false := by
  constructor <;> decide

/-- C7 amended: the four conversational prompt builders (symptom summary,
document summary, pre-visit chat, post-visit chat) all produce prompts
containing both the fixed system/role preamble and the disclaimer block;
the OCR-cleanup prompt is only a fixed header and footer around the raw
text, with neither block of its own. -/
theorem C7_prompts_contain_preamble (symptoms ctxSymptoms : List Symptom)
    (text msg : String) (summary : Option PostVisitSummary) :
    (strContains (get_symptom_summary_prompt symptoms) SYSTEM_PROMPT_BASE = true ∧
      strContains (get_symptom_summary_prompt symptoms) MEDICAL_DISCLAIMER = true) ∧
    (strContains (get_document_summary_prompt text) SYSTEM_PROMPT_BASE = true ∧
      strContains (get_document_summary_prompt text) MEDICAL_DISCLAIMER = true) ∧
    (strContains (get_pre_visit_chat_prompt msg ctxSymptoms) SYSTEM_PROMPT_BASE = true ∧
      strContains (get_pre_visit_chat_prompt msg ctxSymptoms) MEDICAL_DISCLAIMER = true) ∧
    (strContains (get_post_visit_chat_prompt msg summary) SYSTEM_PROMPT_BASE = true ∧
      strContains (get_post_visit_chat_prompt msg summary) MEDICAL_DISCLAIMER = true) ∧
    get_ocr_cleanup_prompt text = ocrPromptHeader ++ text ++ ocrPromptFooter :=
  ⟨contains_both _, contains_both _, contains_both _, contains_both _, rfl⟩

set_option maxRecDepth 100000 in
/-- The two fallback chat templates differ at character index 39
(`'p'` of "preparing" vs `'y'` of "your"), before the echoed message. -/
theorem fallback_chat_pre_ne_post (m : String) :
    (fallback_chat_response m "pre_visit").response ≠
      (fallback_chat_response m "post_visit").response := by
  have e1 : (fallback_chat_response m "pre_visit").response =
      fallbackChatPreHead ++ "\x22" ++ m ++ "\x22" ++ fallbackChatPreSuffix := by
    simp [fallback_chat_response]
  have e2 : (fallback_chat_response m "post_visit").response =
      fallbackChatPostHead ++ "\x22" ++ m ++ "\x22" ++ fallbackChatPostSuffix := by
    simp [fallback_chat_response]
  rw [e1, e2]
  have hA : (39 : Nat) < fallbackChatPreHead.data.length := by decide
  have hA1 := lt_length_append fallbackChatPreHead "\x22" 39 hA
  have hA2 := lt_length_append (fallbackChatPreHead ++ "\x22") m 39 hA1
  have hA3 := lt_length_append ((fallbackChatPreHead ++ "\x22") ++ m) "\x22" 39 hA2
  have hB : (39 : Nat) < fallbackChatPostHead.data.length := by decide
  have hB1 := lt_length_append fallbackChatPostHead "\x22" 39 hB
  have hB2 := lt_length_append (fallbackChatPostHead ++ "\x22") m 39 hB1
  have hB3 := lt_length_append ((fallbackChatPostHead ++ "\x22") ++ m) "\x22" 39 hB2
  apply str_ne_of_get _ _ 39
  rw [get_append_left _ _ _ hA3, get_append_left _ _ _ hA2,
    get_append_left _ _ _ hA1, get_append_left _ _ _ hA,
    get_append_left _ _ _ hB3, get_append_left _ _ _ hB2,
    get_append_left _ _ _ hB1, get_append_left _ _ _ hB]
  decide

/-- C8: with no credential configured, `chat` returns `success = true` and
a templated response echoing the user's message verbatim inside ASCII
double quotes; every mode other than exactly `"pre_visit"` yields the
post-visit template, `"pre_visit"` yields the pre-visit template, and the
two templates differ for every message; the concrete scenario
`chat("What should I ask my doctor?", "pre_visit", {})` returns
`success = true` and a response containing that question verbatim. -/
theorem C8_chat_fallback_echo (message mode : String) (ctx : ChatContext) :
    (chat message mode ctx .unavailable).success = true ∧
    strContains (chat message mode ctx .unavailable).response
      ("\x22" ++ message ++ "\x22") = true ∧
    (mode = "pre_visit" →
      (chat message mode ctx .unavailable).response =
        fallbackChatPreHead ++ "\x22" ++ message ++ "\x22" ++ fallbackChatPreSuffix) ∧
    (mode ≠ "pre_visit" →
      (chat message mode ctx .unavailable).response =
        fallbackChatPostHead ++ "\x22" ++ message ++ "\x22" ++ fallbackChatPostSuffix) ∧
    (fallback_chat_response message "pre_visit").response ≠
      (fallback_chat_response message "post_visit").response ∧
    ((chat "What should I ask my doctor?" "pre_visit" ctx .unavailable).success = true ∧
      strContains (chat "What should I ask my doctor?" "pre_visit" ctx
        .unavailable).response "What should I ask my doctor?" = true) := by
  refine ⟨?_, ?_, fun hm => ?_, fun hm => ?_, fallback_chat_pre_ne_post message,
    rfl, ?_⟩
  · show (fallback_chat_response message mode).success = true
    unfold fallback_chat_response
    split <;> rfl
  · show strContains (fallback_chat_response message mode).response
      ("\x22" ++ message ++ "\x22") = true
    by_cases hm : mode = "pre_visit"
    · have e : (fallback_chat_response message mode).response =
          fallbackChatPreHead ++ "\x22" ++ message ++ "\x22" ++
            fallbackChatPreSuffix := by
        simp [fallback_chat_response, hm]
      rw [e]
      exact strContains_data _ _ fallbackChatPreHead.data
        fallbackChatPreSuffix.data (by simp [strData_append, List.append_assoc])
    · have e : (fallback_chat_response message mode).response =
          fallbackChatPostHead ++ "\x22" ++ message ++ "\x22" ++
            fallbackChatPostSuffix := by
        simp [fallback_chat_response, hm]
      rw [e]
      exact strContains_data _ _ fallbackChatPostHead.data
        fallbackChatPostSuffix.data (by simp [strData_append, List.append_assoc])
  · show (fallback_chat_response message mode).response = _
    simp [fallback_chat_response, hm]
  · show (fallback_chat_response message mode).response = _
    simp [fallback_chat_response, hm]
  · show strContains (fallback_chat_response "What should I ask my doctor?"
        "pre_visit").response "What should I ask my doctor?" = true
    have e : (fallback_chat_response "What should I ask my doctor?"
        "pre_visit").response =
        fallbackChatPreHead ++ "\x22" ++ "What should I ask my doctor?" ++
          "\x22" ++ fallbackChatPreSuffix := by
      simp [fallback_chat_response]
    rw [e]
    exact strContains_data _ _ (fallbackChatPreHead.data ++ "\x22".data)
      ("\x22".data ++ fallbackChatPreSuffix.data)
      (by simp [strData_append, List.append_assoc])

/-- Witness for C8 at the concrete scenario and a non-pre mode. -/
theorem C8_chat_fallback_echo_witness :
    (chat "What should I ask my doctor?" "pre_visit" { symptoms := [], summary := none }
      .unavailable).success = true ∧
    strContains (chat "What should I ask my doctor?" "pre_visit"
      { symptoms := [], summary := none } .unavailable).response
      "What should I ask my doctor?" = true ∧
    (chat "hello" "PRE_VISIT" { symptoms := [], summary := none }
      .unavailable).response =
      fallbackChatPostHead ++ "\x22" ++ "hello" ++ "\x22" ++ fallbackChatPostSuffix :=
  ⟨(C8_chat_fallback_echo "What should I ask my doctor?" "pre_visit"
      { symptoms := [], summary := none }).2.2.2.2.2.1,
   (C8_chat_fallback_echo "What should I ask my doctor?" "pre_visit"
      { symptoms := [], summary := none }).2.2.2.2.2.2,
   (C8_chat_fallback_echo "hello" "PRE_VISIT"
      { symptoms := [], summary := none }).2.2.2.1 (by decide)⟩

end CarePrep
